import Mathlib

/-!
Shallow embedding of the VMX bring-up core of the `hv` hypervisor
(`vcpu.cpp` / `vcpu.h`): the feature/mode gate, VMXON entry, VMCS pointer
lifecycle, VMCS field programming, the vm-exit dispatcher and the host
interrupt bridge.

Hardware reads (CPUID, MSRs) and the success/failure CF/ZF outcomes of the
privileged VMX instructions are modelled as an oracle `Hw` supplied by the
environment; the per-core mutable state touched by the code (CR0/CR4, the
VMXON and VMCS regions, the interrupt flag, the list of privileged VMX
instructions issued so far) is an explicit `Machine` record threaded through
the functions.  64-bit machine integers are `Nat` with explicit `% 2 ^ 64`
where C overflow semantics matter.
-/

namespace Hv

/-- Model-specific registers read by the core (names as in the source). -/
inductive Msr where
  | ia32_feature_control
  | ia32_vmx_basic
  | ia32_vmx_cr0_fixed0
  | ia32_vmx_cr0_fixed1
  | ia32_vmx_cr4_fixed0
  | ia32_vmx_cr4_fixed1
  | ia32_fs_base
  | ia32_gs_base
  | ia32_debugctl
  | ia32_sysenter_cs
  | ia32_sysenter_esp
  | ia32_sysenter_eip
deriving DecidableEq

/-- Hardware oracle: CPUID feature report, MSR contents, and the
success/failure status each privileged VMX instruction would report. -/
structure Hw where
  /-- `cpuid_1.cpuid_feature_information_ecx.virtual_machine_extensions` -/
  cpuid_vmx : Bool
  /-- 64-bit MSR contents, `__readmsr` -/
  msr : Msr → Nat
  vmxon_ok : Bool
  vmclear_ok : Bool
  vmptrld_ok : Bool
  vmlaunch_ok : Bool

/-- `IA32_FEATURE_CONTROL.lock_bit` (bit 0 of the register). -/
def lock_bit (feature_control : Nat) : Bool := feature_control.testBit 0

/-- `IA32_FEATURE_CONTROL.enable_vmx_outside_smx` (bit 2 of the register). -/
def enable_vmx_outside_smx (feature_control : Nat) : Bool := feature_control.testBit 2

/-- `ia32_vmx_basic_register.vmcs_revision_id`: bits 0..30 of IA32_VMX_BASIC. -/
def vmcs_revision_id (hw : Hw) : Nat := hw.msr .ia32_vmx_basic % 2 ^ 31

/-- `CR4_VMX_ENABLE_FLAG` (CR4 bit 13). -/
def cr4_vmx_enable_flag : Nat := 0x2000

/-- The 4-KiB VMXON region; only its two header fields are ever written. -/
structure VmxonRegion where
  revision_id : Nat
  must_be_zero : Nat
deriving DecidableEq

/-- The 4-KiB VMCS region; only its two header fields are written directly
(all other state goes through vmwrite once the region is active). -/
structure VmcsRegion where
  revision_id : Nat
  shadow_vmcs_indicator : Nat
deriving DecidableEq

/-- A privileged VMX instruction as issued, recording (for the instructions
that take the physical address of a region) the header contents of that
region at the moment the instruction is executed. -/
inductive Instr where
  | vmxon (revision_id must_be_zero : Nat)
  | vmxoff
  | vmclear (revision_id shadow_vmcs_indicator : Nat)
  | vmptrld (revision_id shadow_vmcs_indicator : Nat)
  | invept
  | vmlaunch
deriving DecidableEq

/-- VMCS field identifiers written by the field-programming functions
(the `VMCS_*` encodings of the source, one constructor per field). -/
inductive VmcsField where
  | ctrl_pin_based
  | ctrl_proc_based
  | ctrl_proc_based2
  | ctrl_exit
  | ctrl_entry
  | ctrl_exception_bitmap
  | ctrl_pagefault_error_code_mask
  | ctrl_pagefault_error_code_match
  | ctrl_cr4_guest_host_mask
  | ctrl_cr4_read_shadow
  | ctrl_cr0_guest_host_mask
  | ctrl_cr0_read_shadow
  | ctrl_cr3_target_count
  | ctrl_cr3_target_value_0
  | ctrl_cr3_target_value_1
  | ctrl_cr3_target_value_2
  | ctrl_cr3_target_value_3
  | ctrl_msr_bitmap_address
  | ctrl_vmexit_msr_store_count
  | ctrl_vmexit_msr_store_address
  | ctrl_vmexit_msr_load_count
  | ctrl_vmexit_msr_load_address
  | ctrl_vmentry_msr_load_count
  | ctrl_vmentry_msr_load_address
  | ctrl_vmentry_interruption_information_field
  | ctrl_vmentry_exception_error_code
  | ctrl_vmentry_instruction_length
  | host_cr0
  | host_cr3
  | host_cr4
  | host_rsp
  | host_rip
  | host_cs_selector
  | host_ss_selector
  | host_ds_selector
  | host_es_selector
  | host_fs_selector
  | host_gs_selector
  | host_tr_selector
  | host_fs_base
  | host_gs_base
  | host_tr_base
  | host_gdtr_base
  | host_idtr_base
  | host_sysenter_cs
  | host_sysenter_esp
  | host_sysenter_eip
  | guest_cr0
  | guest_cr3
  | guest_cr4
  | guest_dr7
  | guest_rsp
  | guest_rip
  | guest_rflags
  | guest_cs_selector
  | guest_ss_selector
  | guest_ds_selector
  | guest_es_selector
  | guest_fs_selector
  | guest_gs_selector
  | guest_tr_selector
  | guest_ldtr_selector
  | guest_cs_base
  | guest_ss_base
  | guest_ds_base
  | guest_es_base
  | guest_fs_base
  | guest_gs_base
  | guest_tr_base
  | guest_ldtr_base
  | guest_cs_limit
  | guest_ss_limit
  | guest_ds_limit
  | guest_es_limit
  | guest_fs_limit
  | guest_gs_limit
  | guest_tr_limit
  | guest_ldtr_limit
  | guest_cs_access_rights
  | guest_ss_access_rights
  | guest_ds_access_rights
  | guest_es_access_rights
  | guest_fs_access_rights
  | guest_gs_access_rights
  | guest_tr_access_rights
  | guest_ldtr_access_rights
  | guest_gdtr_base
  | guest_idtr_base
  | guest_gdtr_limit
  | guest_idtr_limit
  | guest_debugctl
  | guest_sysenter_cs
  | guest_sysenter_esp
  | guest_sysenter_eip
  | guest_activity_state
  | guest_interruptibility_state
  | guest_pending_debug_exceptions
  | guest_vmcs_link_pointer
deriving DecidableEq

/-- Per-core mutable state touched by the bring-up sequence. -/
structure Machine where
  cr0 : Nat
  cr4 : Nat
  /-- RFLAGS.IF, toggled by `_disable()` / `_enable()` -/
  interrupts_enabled : Bool
  vmxon_region : VmxonRegion
  vmcs_region : VmcsRegion
  /-- whether the core is currently in VMX root operation -/
  in_vmx_root : Bool
  /-- privileged VMX instructions issued so far, in order -/
  trace : List Instr
  /-- abstract contents of `msr_bitmap_`, `host_tss_`, `host_idt_`, `host_gdt_` -/
  msr_bitmap : Nat
  host_tss : Nat
  host_idt : Nat
  host_gdt : Nat
  /-- vmwrites issued to the active VMCS so far, in order -/
  vmcs_writes : List (VmcsField × Nat)
deriving DecidableEq

/-- `vcpu::enable_vmx_operation` — the feature & mode gate. -/
def enable_vmx_operation (hw : Hw) (s : Machine) : Bool × Machine :=
  -- 3.23.6
  if !hw.cpuid_vmx then (false, s)
  else
    let feature_control := hw.msr .ia32_feature_control
    -- 3.23.7
    if !lock_bit feature_control || !enable_vmx_outside_smx feature_control then (false, s)
    else
      -- _disable()
      let s := { s with interrupts_enabled := false }
      let cr0 := s.cr0
      let cr4 := s.cr4
      -- 3.23.7
      let cr4 := cr4 ||| cr4_vmx_enable_flag
      -- 3.23.8
      let cr0 := cr0 ||| hw.msr .ia32_vmx_cr0_fixed0
      let cr0 := cr0 &&& hw.msr .ia32_vmx_cr0_fixed1
      let cr4 := cr4 ||| hw.msr .ia32_vmx_cr4_fixed0
      let cr4 := cr4 &&& hw.msr .ia32_vmx_cr4_fixed1
      let s := { s with cr0 := cr0, cr4 := cr4 }
      -- _enable()
      let s := { s with interrupts_enabled := true }
      (true, s)

/-- `vmx_vmxoff`: leave VMX root operation. -/
def vmx_vmxoff (s : Machine) : Machine :=
  { s with in_vmx_root := false, trace := s.trace ++ [.vmxoff] }

/-- `vcpu::enter_vmx_operation` — stamp the VMXON region and execute VMXON. -/
def enter_vmx_operation (hw : Hw) (s : Machine) : Bool × Machine :=
  -- 3.24.11.5
  let s := { s with vmxon_region := ⟨vmcs_revision_id hw, 0⟩ }
  -- enter vmx operation
  let s := { s with trace := s.trace ++
    [.vmxon s.vmxon_region.revision_id s.vmxon_region.must_be_zero] }
  if !hw.vmxon_ok then
    -- TODO: cleanup
    (false, s)
  else
    let s := { s with in_vmx_root := true }
    -- 3.28.3.3.4
    let s := { s with trace := s.trace ++ [.invept] }
    (true, s)

/-- `vcpu::set_vmcs_pointer` — stamp the VMCS region, VMCLEAR then VMPTRLD. -/
def set_vmcs_pointer (hw : Hw) (s : Machine) : Bool × Machine :=
  -- 3.24.2
  let s := { s with vmcs_region := ⟨vmcs_revision_id hw, 0⟩ }
  let s := { s with trace := s.trace ++
    [.vmclear s.vmcs_region.revision_id s.vmcs_region.shadow_vmcs_indicator] }
  if !hw.vmclear_ok then (false, s)
  else
    let s := { s with trace := s.trace ++
      [.vmptrld s.vmcs_region.revision_id s.vmcs_region.shadow_vmcs_indicator] }
    if !hw.vmptrld_ok then (false, s)
    else (true, s)

/-- The value paired with field `f` in a vmwrite sequence (the first write,
when one exists; each field is written at most once by this core). -/
def writtenValue (ws : List (VmcsField × Nat)) (f : VmcsField) : Option Nat :=
  (ws.find? fun p => decide (p.1 = f)).map (·.2)

/-- Ambient execution environment read by the field-programming functions:
current control/debug/flags registers, descriptor-table state, addresses of
the per-core storage, and the external helpers from `util/vmx.h` /
`util/segment.h` that the source calls (modelled as opaque functions). -/
structure Env where
  cr0 : Nat
  cr3 : Nat
  cr4 : Nat
  dr7 : Nat
  rflags : Nat
  msr : Msr → Nat
  /-- `reinterpret_cast<size_t>(host_stack_)` -/
  host_stack_base : Nat
  /-- `reinterpret_cast<size_t>(&host_tss_)` -/
  host_tss_base : Nat
  /-- `reinterpret_cast<size_t>(&host_gdt_)` -/
  host_gdt_base : Nat
  /-- `reinterpret_cast<size_t>(&host_idt_)` -/
  host_idt_base : Nat
  /-- `reinterpret_cast<size_t>(__vm_exit)` -/
  vm_exit_address : Nat
  /-- `get_physical(&msr_bitmap_)` -/
  msr_bitmap_phys : Nat
  /-- current GDTR/IDTR as read by `_sgdt` / `__sidt` -/
  gdtr_base : Nat
  gdtr_limit : Nat
  idtr_base : Nat
  idtr_limit : Nat
  /-- `segment_base(gdtr, selector)` (external, `util/segment.h`) -/
  segment_base : Nat → Nat
  /-- `__segmentlimit(selector)` -/
  segment_limit : Nat → Nat
  /-- `segment_access(gdtr, selector).flags` (external, `util/segment.h`) -/
  segment_access : Nat → Nat
  /-- the value each `write_ctrl_*_safe` helper (external, `util/vmx.h`)
  installs, as a function of the requested control flags -/
  write_ctrl_pin_based_safe : Nat → Nat
  write_ctrl_proc_based_safe : Nat → Nat
  write_ctrl_proc_based2_safe : Nat → Nat
  write_ctrl_exit_safe : Nat → Nat
  write_ctrl_entry_safe : Nat → Nat
  /-- whether this is a debug build (`#ifndef NDEBUG` in the source) -/
  debug_build : Bool
  /-- contents installed by `prepare_host_idt(host_idt_)` (external, idt.h) -/
  prepare_host_idt_result : Nat
  /-- contents installed by `prepare_host_gdt(host_gdt_, tss_addr)`
  (external, gdt.h), as a function of the TSS address passed in -/
  prepare_host_gdt_result : Nat → Nat

/-- Pin-based controls requested by `write_vmcs_ctrl_fields`:
`nmi_exiting` (bit 3) and `virtual_nmi` (bit 5). -/
def pin_based_ctrl_flags : Nat := 2 ^ 3 + 2 ^ 5

/-- Processor-based controls requested by `write_vmcs_ctrl_fields`:
`use_msr_bitmaps` (bit 28), `activate_secondary_controls` (bit 31), and in
debug builds `cr3_load_exiting` (bit 15) and `cr3_store_exiting` (bit 16). -/
def proc_based_ctrl_flags (debug_build : Bool) : Nat :=
  (if debug_build then 2 ^ 15 + 2 ^ 16 else 0) + 2 ^ 28 + 2 ^ 31

/-- Secondary processor-based controls requested: `enable_rdtscp` (bit 3),
`enable_invpcid` (bit 12), `conceal_vmx_from_pt` (bit 19), `enable_xsaves`
(bit 20), `enable_user_wait_pause` (bit 26). -/
def proc_based_ctrl2_flags : Nat := 2 ^ 3 + 2 ^ 12 + 2 ^ 19 + 2 ^ 20 + 2 ^ 26

/-- VM-exit controls requested: `save_debug_controls` (bit 2),
`host_address_space_size` (bit 9), `conceal_vmx_from_pt` (bit 24). -/
def exit_ctrl_flags : Nat := 2 ^ 2 + 2 ^ 9 + 2 ^ 24

/-- VM-entry controls requested: `load_debug_controls` (bit 2),
`ia32e_mode_guest` (bit 9), `conceal_vmx_from_pt` (bit 17). -/
def entry_ctrl_flags : Nat := 2 ^ 2 + 2 ^ 9 + 2 ^ 17

/-- `vcpu::write_vmcs_ctrl_fields`, as the ordered vmwrite sequence it
performs (the five `write_ctrl_*_safe` calls install the helper-adjusted
value of the requested flags). -/
def write_vmcs_ctrl_fields (env : Env) : List (VmcsField × Nat) :=
  [ (.ctrl_pin_based, env.write_ctrl_pin_based_safe pin_based_ctrl_flags),
    (.ctrl_proc_based, env.write_ctrl_proc_based_safe (proc_based_ctrl_flags env.debug_build)),
    (.ctrl_proc_based2, env.write_ctrl_proc_based2_safe proc_based_ctrl2_flags),
    (.ctrl_exit, env.write_ctrl_exit_safe exit_ctrl_flags),
    (.ctrl_entry, env.write_ctrl_entry_safe entry_ctrl_flags),
    (.ctrl_exception_bitmap, 0),
    (.ctrl_pagefault_error_code_mask, 0),
    (.ctrl_pagefault_error_code_match, 0),
    (.ctrl_cr4_guest_host_mask, 0),
    (.ctrl_cr4_read_shadow, 0),
    (.ctrl_cr0_guest_host_mask, 0),
    (.ctrl_cr0_read_shadow, 0),
    (.ctrl_cr3_target_count, 0),
    (.ctrl_cr3_target_value_0, 0),
    (.ctrl_cr3_target_value_1, 0),
    (.ctrl_cr3_target_value_2, 0),
    (.ctrl_cr3_target_value_3, 0),
    (.ctrl_msr_bitmap_address, env.msr_bitmap_phys),
    (.ctrl_vmexit_msr_store_count, 0),
    (.ctrl_vmexit_msr_store_address, 0),
    (.ctrl_vmexit_msr_load_count, 0),
    (.ctrl_vmexit_msr_load_address, 0),
    (.ctrl_vmentry_msr_load_count, 0),
    (.ctrl_vmentry_msr_load_address, 0),
    (.ctrl_vmentry_interruption_information_field, 0),
    (.ctrl_vmentry_exception_error_code, 0),
    (.ctrl_vmentry_instruction_length, 0) ]

/-- `host_stack_size` (vcpu.h): 0x6000 bytes. -/
def host_stack_size : Nat := 0x6000

/-- `size_t` arithmetic is modulo `2 ^ 64`. -/
def size_t_mod : Nat := 2 ^ 64

/-- The host RSP computed by `write_vmcs_host_fields`:
`((host_stack_ + host_stack_size) & ~0b1111ull) - 8` in 64-bit `size_t`
arithmetic. -/
def host_rsp (host_stack_base : Nat) : Nat :=
  (((host_stack_base + host_stack_size) % size_t_mod &&& 0xFFFFFFFFFFFFFFF0)
    + (size_t_mod - 8)) % size_t_mod

/-- `host_cs_selector.flags` (vcpu.h: `{ 0, 0, 1 }` = rpl 0, table 0,
index 1, so the raw selector is `1 <<< 3`). -/
def host_cs_selector_flags : Nat := 0x08

/-- `host_tr_selector.flags` (vcpu.h: `{ 0, 0, 2 }`). -/
def host_tr_selector_flags : Nat := 0x10

/-- `vcpu::write_vmcs_host_fields`, as the ordered vmwrite sequence. -/
def write_vmcs_host_fields (env : Env) : List (VmcsField × Nat) :=
  [ (.host_cr0, env.cr0),
    (.host_cr3, env.cr3),
    (.host_cr4, env.cr4),
    (.host_rsp, host_rsp env.host_stack_base),
    (.host_rip, env.vm_exit_address),
    (.host_cs_selector, host_cs_selector_flags),
    (.host_ss_selector, 0x00),
    (.host_ds_selector, 0x00),
    (.host_es_selector, 0x00),
    (.host_fs_selector, 0x00),
    (.host_gs_selector, 0x00),
    (.host_tr_selector, host_tr_selector_flags),
    (.host_fs_base, 0),
    (.host_gs_base, 0),
    (.host_tr_base, env.host_tss_base),
    (.host_gdtr_base, env.host_gdt_base),
    (.host_idtr_base, env.host_idt_base),
    (.host_sysenter_cs, 0),
    (.host_sysenter_esp, 0),
    (.host_sysenter_eip, 0) ]

/-- `vmx_active` guest activity state. -/
def vmx_active : Nat := 0

/-- `vcpu::write_vmcs_guest_fields`, as the ordered vmwrite sequence.
The segment selectors are the hardcoded constants of the source. -/
def write_vmcs_guest_fields (env : Env) : List (VmcsField × Nat) :=
  [ (.guest_cr0, env.cr0),
    (.guest_cr3, env.cr3),
    (.guest_cr4, env.cr4),
    (.guest_dr7, env.dr7),
    (.guest_rsp, 0),
    (.guest_rip, 0),
    (.guest_rflags, env.rflags),
    (.guest_cs_selector, 0x10),
    (.guest_ss_selector, 0x18),
    (.guest_ds_selector, 0x2B),
    (.guest_es_selector, 0x2B),
    (.guest_fs_selector, 0x53),
    (.guest_gs_selector, 0x2B),
    (.guest_tr_selector, 0x40),
    (.guest_ldtr_selector, 0x00),
    (.guest_cs_base, env.segment_base 0x10),
    (.guest_ss_base, env.segment_base 0x18),
    (.guest_ds_base, env.segment_base 0x2B),
    (.guest_es_base, env.segment_base 0x2B),
    (.guest_fs_base, env.msr .ia32_fs_base),
    (.guest_gs_base, env.msr .ia32_gs_base),
    (.guest_tr_base, env.segment_base 0x40),
    (.guest_ldtr_base, env.segment_base 0x00),
    (.guest_cs_limit, env.segment_limit 0x10),
    (.guest_ss_limit, env.segment_limit 0x18),
    (.guest_ds_limit, env.segment_limit 0x2B),
    (.guest_es_limit, env.segment_limit 0x2B),
    (.guest_fs_limit, env.segment_limit 0x53),
    (.guest_gs_limit, env.segment_limit 0x2B),
    (.guest_tr_limit, env.segment_limit 0x40),
    (.guest_ldtr_limit, env.segment_limit 0x00),
    (.guest_cs_access_rights, env.segment_access 0x10),
    (.guest_ss_access_rights, env.segment_access 0x18),
    (.guest_ds_access_rights, env.segment_access 0x2B),
    (.guest_es_access_rights, env.segment_access 0x2B),
    (.guest_fs_access_rights, env.segment_access 0x53),
    (.guest_gs_access_rights, env.segment_access 0x2B),
    (.guest_tr_access_rights, env.segment_access 0x40),
    (.guest_ldtr_access_rights, env.segment_access 0x00),
    (.guest_gdtr_base, env.gdtr_base),
    (.guest_idtr_base, env.idtr_base),
    (.guest_gdtr_limit, env.gdtr_limit),
    (.guest_idtr_limit, env.idtr_limit),
    (.guest_debugctl, env.msr .ia32_debugctl),
    (.guest_sysenter_cs, env.msr .ia32_sysenter_cs),
    (.guest_sysenter_esp, env.msr .ia32_sysenter_esp),
    (.guest_sysenter_eip, env.msr .ia32_sysenter_eip),
    (.guest_activity_state, vmx_active),
    (.guest_interruptibility_state, 0),
    (.guest_pending_debug_exceptions, 0),
    (.guest_vmcs_link_pointer, 0xFFFFFFFFFFFFFFFF) ]

/-- `vcpu::prepare_external_structures`: zero the MSR bitmap and the host
TSS, then let the external builders fill the host IDT and GDT. -/
def prepare_external_structures (env : Env) (s : Machine) : Machine :=
  { s with msr_bitmap := 0,
           host_tss := 0,
           host_idt := env.prepare_host_idt_result,
           host_gdt := env.prepare_host_gdt_result env.host_tss_base }

/-- `vcpu::virtualize` — the per-core bring-up sequence. -/
def virtualize (hw : Hw) (env : Env) (s : Machine) : Bool × Machine :=
  match enable_vmx_operation hw s with
  | (false, s) => (false, s)
  | (true, s) =>
    match enter_vmx_operation hw s with
    | (false, s) => (false, s)
    | (true, s) =>
      match set_vmcs_pointer hw s with
      | (false, s) =>
        -- TODO: cleanup
        (false, vmx_vmxoff s)
      | (true, s) =>
        let s := prepare_external_structures env s
        let s := { s with vmcs_writes := s.vmcs_writes
          ++ write_vmcs_ctrl_fields env
          ++ write_vmcs_host_fields env
          ++ write_vmcs_guest_fields env }
        -- launch the virtual machine (__vm_launch)
        let s := { s with trace := s.trace ++ [.vmlaunch] }
        if !hw.vmlaunch_ok then
          -- TODO: cleanup
          (false, vmx_vmxoff s)
        else
          (true, s)

/-- `VMX_EXIT_REASON_*` basic exit-reason encodings (ia32.hpp / SDM). -/
def VMX_EXIT_REASON_EXCEPTION_OR_NMI : Nat := 0

def VMX_EXIT_REASON_NMI_WINDOW : Nat := 8

def VMX_EXIT_REASON_EXECUTE_CPUID : Nat := 10

def VMX_EXIT_REASON_MOV_CR : Nat := 28

def VMX_EXIT_REASON_EXECUTE_RDMSR : Nat := 31

def VMX_EXIT_REASON_EXECUTE_WRMSR : Nat := 32

/-- Which branch of the `handle_vm_exit` switch ran. -/
inductive InvokedHandler where
  | mov_cr
  | cpuid
  | rdmsr
  | wrmsr
  | exception_or_nmi
  | nmi_window
  | fatal_default
deriving DecidableEq

/-- The external exit handlers (`exit-handlers.h`), each mutating the
guest-context record passed by reference; modelled as functions on an
abstract guest-context type `GC`. -/
structure ExitHandlers (GC : Type) where
  handle_mov_cr : GC → GC
  emulate_cpuid : GC → GC
  emulate_rdmsr : GC → GC
  emulate_wrmsr : GC → GC
  handle_exception_or_nmi : GC → GC
  handle_nmi_window : GC → GC

/-- `vcpu::handle_vm_exit`: read the exit reason, mask to the 16-bit
`basic_exit_reason` field, and dispatch.  `exit_reason_flags` is the raw
value `vmread(VMCS_EXIT_REASON)` returns (cast to `uint32_t` in the source);
the result records which branch ran and the guest context after it. -/
def handle_vm_exit {GC : Type} (h : ExitHandlers GC) (exit_reason_flags : Nat)
    (ctx : GC) : InvokedHandler × GC :=
  let basic_exit_reason := exit_reason_flags % 2 ^ 32 % 2 ^ 16
  if basic_exit_reason = VMX_EXIT_REASON_MOV_CR then
    (.mov_cr, h.handle_mov_cr ctx)
  else if basic_exit_reason = VMX_EXIT_REASON_EXECUTE_CPUID then
    (.cpuid, h.emulate_cpuid ctx)
  else if basic_exit_reason = VMX_EXIT_REASON_EXECUTE_RDMSR then
    (.rdmsr, h.emulate_rdmsr ctx)
  else if basic_exit_reason = VMX_EXIT_REASON_EXECUTE_WRMSR then
    (.wrmsr, h.emulate_wrmsr ctx)
  else if basic_exit_reason = VMX_EXIT_REASON_EXCEPTION_OR_NMI then
    (.exception_or_nmi, h.handle_exception_or_nmi ctx)
  else if basic_exit_reason = VMX_EXIT_REASON_NMI_WINDOW then
    (.nmi_window, h.handle_nmi_window ctx)
  else
    -- __debugbreak(); DbgPrint(...): diagnostic only, ctx untouched
    (.fatal_default, ctx)

/-- The NMI interrupt vector (`nmi` constant used by the source's
`handle_host_interrupt`; vector 2 on x86). -/
def nmi : Nat := 2

/-- Bit position of `nmi_window_exiting` in the processor-based
VM-execution controls (bit 22, `ia32_vmx_procbased_ctls_register`). -/
def nmi_window_exiting_bit : Nat := 22

/-- `vcpu::handle_host_interrupt`: for the NMI vector, read the
processor-based controls, set `nmi_window_exiting` and write them back;
all other vectors fall out of the switch untouched.  `proc_ctrl` is the
control word `read_ctrl_proc_based()` returns. -/
def handle_host_interrupt (vector : Nat) (proc_ctrl : Nat) : Nat :=
  if vector = nmi then
    proc_ctrl ||| 2 ^ nmi_window_exiting_bit
  else
    proc_ctrl

/-! ## Claim theorems -/

/-- C3: for every basic exit-reason value, `handle_vm_exit` invokes exactly
one external handler — CR move → `handle_mov_cr`, CPUID → `emulate_cpuid`,
RDMSR → `emulate_rdmsr`, WRMSR → `emulate_wrmsr`, exception/NMI →
`handle_exception_or_nmi`, NMI-window → `handle_nmi_window` — and reaches
the fatal default branch exactly when the reason is not one of those six. -/
theorem handle_vm_exit_routing {GC : Type} (h : ExitHandlers GC)
    (r : Nat) (ctx : GC) :
    (handle_vm_exit h r ctx = (.mov_cr, h.handle_mov_cr ctx)
      ↔ r % 2 ^ 32 % 2 ^ 16 = VMX_EXIT_REASON_MOV_CR)
    ∧ (handle_vm_exit h r ctx = (.cpuid, h.emulate_cpuid ctx)
      ↔ r % 2 ^ 32 % 2 ^ 16 = VMX_EXIT_REASON_EXECUTE_CPUID)
    ∧ (handle_vm_exit h r ctx = (.rdmsr, h.emulate_rdmsr ctx)
      ↔ r % 2 ^ 32 % 2 ^ 16 = VMX_EXIT_REASON_EXECUTE_RDMSR)
    ∧ (handle_vm_exit h r ctx = (.wrmsr, h.emulate_wrmsr ctx)
      ↔ r % 2 ^ 32 % 2 ^ 16 = VMX_EXIT_REASON_EXECUTE_WRMSR)
    ∧ (handle_vm_exit h r ctx = (.exception_or_nmi, h.handle_exception_or_nmi ctx)
      ↔ r % 2 ^ 32 % 2 ^ 16 = VMX_EXIT_REASON_EXCEPTION_OR_NMI)
    ∧ (handle_vm_exit h r ctx = (.nmi_window, h.handle_nmi_window ctx)
      ↔ r % 2 ^ 32 % 2 ^ 16 = VMX_EXIT_REASON_NMI_WINDOW)
    ∧ (handle_vm_exit h r ctx = (.fatal_default, ctx)
      ↔ (r % 2 ^ 32 % 2 ^ 16 ≠ VMX_EXIT_REASON_MOV_CR
        ∧ r % 2 ^ 32 % 2 ^ 16 ≠ VMX_EXIT_REASON_EXECUTE_CPUID
        ∧ r % 2 ^ 32 % 2 ^ 16 ≠ VMX_EXIT_REASON_EXECUTE_RDMSR
        ∧ r % 2 ^ 32 % 2 ^ 16 ≠ VMX_EXIT_REASON_EXECUTE_WRMSR
        ∧ r % 2 ^ 32 % 2 ^ 16 ≠ VMX_EXIT_REASON_EXCEPTION_OR_NMI
        ∧ r % 2 ^ 32 % 2 ^ 16 ≠ VMX_EXIT_REASON_NMI_WINDOW)) := by
  simp only [handle_vm_exit, VMX_EXIT_REASON_MOV_CR, VMX_EXIT_REASON_EXECUTE_CPUID,
    VMX_EXIT_REASON_EXECUTE_RDMSR, VMX_EXIT_REASON_EXECUTE_WRMSR,
    VMX_EXIT_REASON_EXCEPTION_OR_NMI, VMX_EXIT_REASON_NMI_WINDOW]
  split_ifs with h1 h2 h3 h4 h5 h6 <;>
    simp_all [Prod.ext_iff]

/-- C9: when `handle_vm_exit` reaches its default branch (an exit reason
outside the six routed cases), the guest-context record is unchanged. -/
theorem handle_vm_exit_default_preserves_ctx {GC : Type} (h : ExitHandlers GC)
    (r : Nat) (ctx : GC)
    (hr : r % 2 ^ 32 % 2 ^ 16 ≠ VMX_EXIT_REASON_MOV_CR
      ∧ r % 2 ^ 32 % 2 ^ 16 ≠ VMX_EXIT_REASON_EXECUTE_CPUID
      ∧ r % 2 ^ 32 % 2 ^ 16 ≠ VMX_EXIT_REASON_EXECUTE_RDMSR
      ∧ r % 2 ^ 32 % 2 ^ 16 ≠ VMX_EXIT_REASON_EXECUTE_WRMSR
      ∧ r % 2 ^ 32 % 2 ^ 16 ≠ VMX_EXIT_REASON_EXCEPTION_OR_NMI
      ∧ r % 2 ^ 32 % 2 ^ 16 ≠ VMX_EXIT_REASON_NMI_WINDOW) :
    (handle_vm_exit h r ctx).2 = ctx := by
  obtain ⟨h1, h2, h3, h4, h5, h6⟩ := hr
  simp_all [handle_vm_exit, VMX_EXIT_REASON_MOV_CR, VMX_EXIT_REASON_EXECUTE_CPUID,
    VMX_EXIT_REASON_EXECUTE_RDMSR, VMX_EXIT_REASON_EXECUTE_WRMSR,
    VMX_EXIT_REASON_EXCEPTION_OR_NMI, VMX_EXIT_REASON_NMI_WINDOW]

/-- Witness for C9: exit reason 2 (triple fault) with handlers that would
visibly mutate a `Nat` context leaves the context untouched. -/
theorem handle_vm_exit_default_preserves_ctx_witness :
    (handle_vm_exit ⟨(· + 1), (· + 2), (· + 3), (· + 4), (· + 5), (· + 6)⟩
      2 (41 : Nat)).2 = 41 :=
  handle_vm_exit_default_preserves_ctx _ 2 41 (by decide)

/-- C4: for a trap frame with the NMI vector, `handle_host_interrupt` leaves
the processor-based controls with `nmi_window_exiting` set regardless of its
prior value; for any other vector the controls are returned unchanged. -/
theorem handle_host_interrupt_nmi_window (vector proc_ctrl : Nat) :
    (vector = nmi →
      (handle_host_interrupt vector proc_ctrl).testBit nmi_window_exiting_bit = true)
    ∧ (vector ≠ nmi → handle_host_interrupt vector proc_ctrl = proc_ctrl) := by
  constructor
  · intro hv
    simp [handle_host_interrupt, hv, Nat.testBit_or, Nat.testBit_two_pow_self]
  · intro hv
    simp [handle_host_interrupt, hv]

/-- Witness for C4: NMI vector (2) sets the bit even from all-zero controls;
vector 3 with controls 7 is a no-op. -/
theorem handle_host_interrupt_nmi_window_witness :
    (handle_host_interrupt 2 0).testBit 22 = true ∧ handle_host_interrupt 3 7 = 7 :=
  ⟨(handle_host_interrupt_nmi_window 2 0).1 rfl,
   (handle_host_interrupt_nmi_window 3 7).2 (by decide)⟩

/-- C8: on the NMI vector, `handle_host_interrupt` changes only the
`nmi_window_exiting` bit of the processor-based controls: every other bit
of the control word is preserved. -/
theorem handle_host_interrupt_frame (proc_ctrl i : Nat)
    (hi : i ≠ nmi_window_exiting_bit) :
    (handle_host_interrupt nmi proc_ctrl).testBit i = proc_ctrl.testBit i := by
  simp [handle_host_interrupt, Nat.testBit_or,
    Nat.testBit_two_pow_of_ne (Ne.symm hi)]

/-- Witness for C8: bit 0 of controls `5` survives the NMI update. -/
theorem handle_host_interrupt_frame_witness :
    (handle_host_interrupt 2 5).testBit 0 = (5 : Nat).testBit 0 :=
  handle_host_interrupt_frame 5 0 (by decide)

/-- C7: `write_vmcs_guest_fields` writes the fixed hardcoded selector
constants CS=0x10, SS=0x18, DS=0x2B, ES=0x2B, FS=0x53, GS=0x2B, TR=0x40,
LDTR=0x00 for every environment, regardless of the environment's actual
live selector values. -/
theorem write_vmcs_guest_fields_hardcoded_selectors (env : Env) :
    writtenValue (write_vmcs_guest_fields env) .guest_cs_selector = some 0x10
    ∧ writtenValue (write_vmcs_guest_fields env) .guest_ss_selector = some 0x18
    ∧ writtenValue (write_vmcs_guest_fields env) .guest_ds_selector = some 0x2B
    ∧ writtenValue (write_vmcs_guest_fields env) .guest_es_selector = some 0x2B
    ∧ writtenValue (write_vmcs_guest_fields env) .guest_fs_selector = some 0x53
    ∧ writtenValue (write_vmcs_guest_fields env) .guest_gs_selector = some 0x2B
    ∧ writtenValue (write_vmcs_guest_fields env) .guest_tr_selector = some 0x40
    ∧ writtenValue (write_vmcs_guest_fields env) .guest_ldtr_selector = some 0x00 := by
  refine ⟨rfl, rfl, rfl, rfl, rfl, rfl, rfl, rfl⟩

/-- Concrete MSR contents used by the concrete-input theorems below:
the feature-control register has the lock bit (bit 0) and VMX-outside-SMX
(bit 2) set, the fixed-bit FIXED1 masks allow every bit, and the VMX basic
register reports revision 3. -/
def sampleMsr : Msr → Nat := fun m =>
  match m with
  | .ia32_feature_control => 0b101
  | .ia32_vmx_cr0_fixed1 => 2 ^ 64 - 1
  | .ia32_vmx_cr4_fixed1 => 2 ^ 64 - 1
  | .ia32_vmx_basic => 3
  | _ => 0

/-- Hardware oracle on which every step succeeds. -/
def sampleHw : Hw := ⟨true, sampleMsr, true, true, true, true⟩

/-- Hardware oracle on which VMCLEAR reports failure. -/
def sampleHwClearFail : Hw := ⟨true, sampleMsr, true, false, true, true⟩

/-- Hardware oracle on which the launch (`__vm_launch`) reports failure. -/
def sampleHwLaunchFail : Hw := ⟨true, sampleMsr, true, true, true, false⟩

/-- A concrete pre-virtualization machine state; its VMCS region header
deliberately holds stale values (revision 7, shadow indicator 5). -/
def sampleMachine : Machine :=
  { cr0 := 0x11
    cr4 := 0x22
    interrupts_enabled := true
    vmxon_region := ⟨0, 0⟩
    vmcs_region := ⟨7, 5⟩
    in_vmx_root := false
    trace := []
    msr_bitmap := 9
    host_tss := 9
    host_idt := 9
    host_gdt := 9
    vmcs_writes := [] }

/-- A concrete ambient environment for the field-programming functions. -/
def sampleEnv : Env :=
  { cr0 := 0x11
    cr3 := 0x33
    cr4 := 0x22
    dr7 := 0
    rflags := 0x202
    msr := sampleMsr
    host_stack_base := 0x100000
    host_tss_base := 0x200000
    host_gdt_base := 0x300000
    host_idt_base := 0x400000
    vm_exit_address := 0x500000
    msr_bitmap_phys := 0x600000
    gdtr_base := 0x700000
    gdtr_limit := 0x7F
    idtr_base := 0x800000
    idtr_limit := 0xFFF
    segment_base := fun _ => 0
    segment_limit := fun _ => 0xFFFFF
    segment_access := fun _ => 0x209B
    write_ctrl_pin_based_safe := fun f => f
    write_ctrl_proc_based_safe := fun f => f
    write_ctrl_proc_based2_safe := fun f => f
    write_ctrl_exit_safe := fun f => f
    write_ctrl_entry_safe := fun f => f
    debug_build := false
    prepare_host_idt_result := 1
    prepare_host_gdt_result := fun a => a + 1 }

/-- C5: the vmxon record issued by `enter_vmx_operation` carries the
hardware-reported VMCS revision identifier and a zero reserved field, and
the VMCLEAR/VMPTRLD records issued by `set_vmcs_pointer` carry that same
revision identifier and a zero shadow indicator — i.e. the region headers
hold exactly these values at the moment each activation instruction is
issued (the trace snapshots the region header at issue time). -/
theorem revision_stamped_before_activation (hw : Hw) (s : Machine) :
    ((enter_vmx_operation hw s).2.trace
        = s.trace ++ [.vmxon (vmcs_revision_id hw) 0]
      ∨ (enter_vmx_operation hw s).2.trace
        = s.trace ++ [.vmxon (vmcs_revision_id hw) 0, .invept])
    ∧ (enter_vmx_operation hw s).2.vmxon_region = ⟨vmcs_revision_id hw, 0⟩
    ∧ ((set_vmcs_pointer hw s).2.trace
        = s.trace ++ [.vmclear (vmcs_revision_id hw) 0]
      ∨ (set_vmcs_pointer hw s).2.trace
        = s.trace ++ [.vmclear (vmcs_revision_id hw) 0,
                      .vmptrld (vmcs_revision_id hw) 0])
    ∧ (set_vmcs_pointer hw s).2.vmcs_region = ⟨vmcs_revision_id hw, 0⟩ := by
  refine ⟨?_, ?_, ?_, ?_⟩
  · cases hon : hw.vmxon_ok <;> simp [enter_vmx_operation, hon]
  · cases hon : hw.vmxon_ok <;> simp [enter_vmx_operation, hon]
  · cases hclr : hw.vmclear_ok <;> cases hld : hw.vmptrld_ok <;>
      simp [set_vmcs_pointer, hclr, hld]
  · cases hclr : hw.vmclear_ok <;> cases hld : hw.vmptrld_ok <;>
      simp [set_vmcs_pointer, hclr, hld]

/-- C10: `set_vmcs_pointer` stamps the VMCS region header (revision
identifier to the hardware-reported revision, shadow indicator to zero)
before issuing VMCLEAR, so the header is mutated even on the runs where
VMCLEAR or VMPTRLD fails and the function returns false. -/
theorem set_vmcs_pointer_not_atomic (hw : Hw) (s : Machine) :
    (set_vmcs_pointer hw s).2.vmcs_region = ⟨vmcs_revision_id hw, 0⟩
    ∧ (hw.vmclear_ok = false ∨ hw.vmptrld_ok = false →
        (set_vmcs_pointer hw s).1 = false) := by
  constructor
  · cases hclr : hw.vmclear_ok <;> cases hld : hw.vmptrld_ok <;>
      simp [set_vmcs_pointer, hclr, hld]
  · intro hfail
    rcases hfail with hclr | hld
    · simp [set_vmcs_pointer, hclr]
    · cases hclr : hw.vmclear_ok <;> simp [set_vmcs_pointer, hclr, hld]

/-- Witness for C10: on a machine whose VMCS header holds stale values
(revision 7, shadow 5) and hardware where VMCLEAR fails, the call returns
false yet the header has been rewritten to (revision 3, shadow 0). -/
theorem set_vmcs_pointer_not_atomic_witness :
    (set_vmcs_pointer sampleHwClearFail sampleMachine).2.vmcs_region = ⟨3, 0⟩
    ∧ (set_vmcs_pointer sampleHwClearFail sampleMachine).1 = false :=
  ⟨(set_vmcs_pointer_not_atomic sampleHwClearFail sampleMachine).1,
   (set_vmcs_pointer_not_atomic sampleHwClearFail sampleMachine).2 (Or.inl rfl)⟩

/-- C1: `enable_vmx_operation` fails closed — if the CPUID VMX feature bit
is absent, or the feature-control register lacks the lock bit or the
VMX-outside-SMX enable, it returns false with the machine state untouched;
if it returns true, CR0 and CR4 have been forced through the hardware
fixed-bit masks (ORed with FIXED0, ANDed with FIXED1, CR4 after first
setting the VMX-enable flag), and — given the architectural guarantee that
the CR4 FIXED1 mask allows the VMX-enable bit — CR4's VMX-enable bit is
set. -/
theorem enable_vmx_operation_gate (hw : Hw) (s : Machine)
    (hfix : (hw.msr .ia32_vmx_cr4_fixed1).testBit 13 = true) :
    ((hw.cpuid_vmx = false
        ∨ lock_bit (hw.msr .ia32_feature_control) = false
        ∨ enable_vmx_outside_smx (hw.msr .ia32_feature_control) = false) →
      enable_vmx_operation hw s = (false, s))
    ∧ ((enable_vmx_operation hw s).1 = true →
        (enable_vmx_operation hw s).2.cr0
          = (s.cr0 ||| hw.msr .ia32_vmx_cr0_fixed0) &&& hw.msr .ia32_vmx_cr0_fixed1
        ∧ (enable_vmx_operation hw s).2.cr4
          = ((s.cr4 ||| cr4_vmx_enable_flag) ||| hw.msr .ia32_vmx_cr4_fixed0)
              &&& hw.msr .ia32_vmx_cr4_fixed1
        ∧ ((enable_vmx_operation hw s).2.cr4).testBit 13 = true) := by
  constructor
  · rintro (hc | hl | he)
    · simp [enable_vmx_operation, hc]
    · cases hc : hw.cpuid_vmx <;> simp [enable_vmx_operation, hc, hl]
    · cases hc : hw.cpuid_vmx <;> simp [enable_vmx_operation, hc, he]
  · intro hok
    cases hc : hw.cpuid_vmx <;>
      cases hl : lock_bit (hw.msr .ia32_feature_control) <;>
      cases he : enable_vmx_outside_smx (hw.msr .ia32_feature_control) <;>
      simp_all [enable_vmx_operation]
    exact Or.inl (Or.inr (by decide))

/-- Witness for C1: on hardware with the gate bits present and permissive
fixed-bit masks, `enable_vmx_operation` succeeds and the resulting CR4 has
the VMX-enable bit set. -/
theorem enable_vmx_operation_gate_witness :
    (sampleHw.msr .ia32_vmx_cr4_fixed1).testBit 13 = true
    ∧ ((enable_vmx_operation sampleHw sampleMachine).2.cr4).testBit 13 = true :=
  ⟨by decide,
   ((enable_vmx_operation_gate sampleHw sampleMachine (by decide)).2 rfl).2.2⟩

/-- `gate_passes hw`: the two feature checks of `enable_vmx_operation`
succeed on `hw`. -/
def gate_passes (hw : Hw) : Prop :=
  hw.cpuid_vmx = true
  ∧ lock_bit (hw.msr .ia32_feature_control) = true
  ∧ enable_vmx_outside_smx (hw.msr .ia32_feature_control) = true

/-- C2: every run of `virtualize` that entered VMX root operation (the gate
passed and VMXON succeeded) but returns false — because `set_vmcs_pointer`
failed or the entry trampoline `__vm_launch` reported failure — has issued
VMXOFF by the time it returns; and `virtualize` returns true only when the
launch succeeded. -/
theorem virtualize_rollback (hw : Hw) (env : Env) (s : Machine) :
    (gate_passes hw → hw.vmxon_ok = true →
      (virtualize hw env s).1 = false →
      Instr.vmxoff ∈ (virtualize hw env s).2.trace)
    ∧ ((virtualize hw env s).1 = true → hw.vmlaunch_ok = true) := by
  constructor
  · rintro ⟨hc, hl, he⟩ hon hfail
    simp only [virtualize, enable_vmx_operation, enter_vmx_operation,
      set_vmcs_pointer, vmx_vmxoff, prepare_external_structures,
      hc, hl, he, hon] at hfail ⊢
    cases hclr : hw.vmclear_ok <;> cases hld : hw.vmptrld_ok <;>
      cases hvl : hw.vmlaunch_ok <;> simp_all
  · intro hok
    cases hc : hw.cpuid_vmx <;>
      cases hl : lock_bit (hw.msr .ia32_feature_control) <;>
      cases he : enable_vmx_outside_smx (hw.msr .ia32_feature_control) <;>
      cases hon : hw.vmxon_ok <;>
      cases hclr : hw.vmclear_ok <;> cases hld : hw.vmptrld_ok <;>
      cases hvl : hw.vmlaunch_ok <;>
      simp_all [virtualize, enable_vmx_operation, enter_vmx_operation,
        set_vmcs_pointer, vmx_vmxoff, prepare_external_structures]

/-- Witness for C2: on hardware where everything up to the launch succeeds
and `__vm_launch` fails, `virtualize` returns false and VMXOFF appears in
the issued-instruction trace. -/
theorem virtualize_rollback_witness :
    (virtualize sampleHwLaunchFail sampleEnv sampleMachine).1 = false
    ∧ Instr.vmxoff ∈ (virtualize sampleHwLaunchFail sampleEnv sampleMachine).2.trace :=
  ⟨by decide,
   (virtualize_rollback sampleHwLaunchFail sampleEnv sampleMachine).1
     ⟨rfl, rfl, rfl⟩ rfl (by decide)⟩

/-- Spec-side: `x` rounded down to a multiple of 16. -/
def alignDown16 (x : Nat) : Nat := x - x % 16

/-- Masking a 64-bit value with `~0b1111` rounds it down to a multiple
of 16. -/
theorem land_mask16 (x : Nat) (hx : x < 2 ^ 64) :
    x &&& 0xFFFFFFFFFFFFFFF0 = x - x % 16 := by
  have hrw : x - x % 16 = (x >>> 4) <<< 4 := by
    rw [Nat.shiftLeft_eq, Nat.shiftRight_eq_div_pow]
    omega
  have hmask : (0xFFFFFFFFFFFFFFF0 : Nat) = (2 ^ 60 - 1) <<< 4 := by decide
  rw [hrw, hmask]
  apply Nat.eq_of_testBit_eq
  intro i
  rw [Nat.testBit_and, Nat.testBit_shiftLeft, Nat.testBit_shiftLeft,
    Nat.testBit_two_pow_sub_one, Nat.testBit_shiftRight]
  by_cases h4 : 4 ≤ i
  · have h : 4 + (i - 4) = i := by omega
    rw [h]
    by_cases h64 : i < 64
    · simp [h4, show i - 4 < 60 by omega]
    · have hxi : x.testBit i = false :=
        Nat.testBit_lt_two_pow
          (lt_of_lt_of_le hx (Nat.pow_le_pow_right (by norm_num) (by omega)))
      simp [hxi, show ¬(i - 4 < 60) by omega]
  · simp [h4]

/-- C6: the host stack pointer written by `write_vmcs_host_fields` is the
top of the 0x6000-byte host stack region rounded down to a multiple of 16,
minus 8 (in 64-bit `size_t` arithmetic) — and is therefore congruent to 8
modulo 16 for every host-stack base address. -/
theorem write_vmcs_host_fields_rsp (env : Env) :
    writtenValue (write_vmcs_host_fields env) .host_rsp
      = some ((alignDown16 ((env.host_stack_base + host_stack_size) % size_t_mod)
          + (size_t_mod - 8)) % size_t_mod)
    ∧ host_rsp env.host_stack_base % 16 = 8 := by
  have hlt : (env.host_stack_base + host_stack_size) % size_t_mod < 2 ^ 64 :=
    Nat.mod_lt _ (by norm_num [size_t_mod])
  have hland := land_mask16 _ hlt
  have heq : host_rsp env.host_stack_base
      = (alignDown16 ((env.host_stack_base + host_stack_size) % size_t_mod)
          + (size_t_mod - 8)) % size_t_mod := by
    unfold host_rsp alignDown16
    rw [hland]
  constructor
  · calc writtenValue (write_vmcs_host_fields env) .host_rsp
        = some (host_rsp env.host_stack_base) := rfl
    _ = _ := by rw [heq]
  · rw [heq]
    have h16 : (16 : Nat) ∣ size_t_mod := by norm_num [size_t_mod]
    rw [Nat.mod_mod_of_dvd _ h16]
    unfold alignDown16 size_t_mod
    omega

end Hv

